import Mathlib

/-!
Shallow embedding of the `slack-revoke-session` action handler
(`src/dist/index.js`, the bundled authority; `src/src/script.mjs` matches it).

Network effects are modelled by explicit state passing: each operation
receives the queue of pending HTTP responses (the oracle) and returns the
list of HTTP requests it issued, in order, together with the remaining
queue.  JavaScript `undefined` for strings is `Option String`; JS
truthiness of such values is the `truthy` predicate.  Timestamps
(`new Date().toISOString()`) are modelled by a `now` argument supplied by
the host clock.
-/

namespace SlackRevoke

deriving instance DecidableEq for Except

/-- JavaScript truthiness of a possibly-undefined string value:
`undefined` and the empty string are falsy, every other string is truthy. -/
def truthy : Option String → Bool
  | none => false
  | some s => !(s == "")

/-- JavaScript truthiness of a plain string. -/
def truthyStr (s : String) : Bool := !(s == "")

/-- Rendering of a possibly-undefined string inside a JS template literal. -/
def jsShow : Option String → String
  | none => "undefined"
  | some s => s

/-- Character class matched by the JavaScript regex `\s` (also the set
trimmed by `String.prototype.trim`): tab, line feed, vertical tab, form
feed, carriage return, space, no-break space, the Unicode space
separators, the line/paragraph separators and the BOM. -/
def jsWhitespace (c : Char) : Bool :=
  let n := c.toNat
  n == 0x09 || n == 0x0A || n == 0x0B || n == 0x0C || n == 0x0D || n == 0x20 ||
  n == 0xA0 || n == 0x1680 || (decide (0x2000 ≤ n) && decide (n ≤ 0x200A)) ||
  n == 0x2028 || n == 0x2029 || n == 0x202F || n == 0x205F || n == 0x3000 || n == 0xFEFF

/-- List-level model of `String.prototype.trim`: drop JS whitespace from
both ends. -/
def jsTrimList (cs : List Char) : List Char :=
  ((cs.dropWhile jsWhitespace).reverse.dropWhile jsWhitespace).reverse

/-- Model of `String.prototype.trim`. -/
def jsTrim (s : String) : String := String.mk (jsTrimList s.data)

/-- Character class `[^\s@]` of the email regex in `validateInputs`. -/
def goodChar (c : Char) : Bool := !(jsWhitespace c) && !(c == '@')

/-- Test of the email regex `^[^\s@]+@[^\s@]+\.[^\s@]+$` from
`validateInputs`.  The local part is everything before the first `@`
(the regex forces the matched `@` to be the first one); the domain part
must consist of `[^\s@]` characters and contain a dot that is neither its
first nor its last character (so that `[^\s@]+` matches on both sides,
those parts being free to contain further dots). -/
def emailRegexTest (s : String) : Bool :=
  match s.data.dropWhile (fun c => !(c == '@')) with
  | [] => false
  | _ :: domain =>
    !(s.data.takeWhile (fun c => !(c == '@'))).isEmpty
      && (s.data.takeWhile (fun c => !(c == '@'))).all goodChar
      && !domain.isEmpty && domain.all goodChar
      && ((domain.drop 1).dropLast.contains '.')

/-- Value of a (non-empty) digit string, as for the integral and
fractional digit groups captured by the duration regex. -/
def digitsVal (cs : List Char) : Nat := cs.foldl (fun a c => a * 10 + (c.toNat - 48)) 0

/-- Time units accepted by `parseDuration`. -/
inductive DurUnit
  | ms
  | s
  | m
  | h
deriving DecidableEq, Repr

/-- Unit multipliers of `parseDuration` (ms → 1, s → 1000, m → 60·1000,
h → 60·60·1000). -/
def unitMult : DurUnit → Rat
  | DurUnit.ms => 1
  | DurUnit.s => 1000
  | DurUnit.m => 60 * 1000
  | DurUnit.h => 60 * 60 * 1000

/-- Match of the regex `^(\d+(?:\.\d+)?)(ms|s|m|h)?$/i` from
`parseDuration`: on success it yields `parseFloat` of the numeric group
(exact, as a rational) and the unit, lower-cased, defaulting to `ms`
exactly as `(match[2] || 'ms').toLowerCase()` does. -/
def matchDuration (str : String) : Option (Rat × DurUnit) :=
  let cs := str.data
  let ds := cs.takeWhile Char.isDigit
  let rest := cs.dropWhile Char.isDigit
  if ds.isEmpty then none
  else
    let vr : Rat × List Char :=
      match rest with
      | '.' :: rest2 =>
        let fs := rest2.takeWhile Char.isDigit
        if fs.isEmpty then ((digitsVal ds : Rat), rest)
        else ((digitsVal ds : Rat) + (digitsVal fs : Rat) / ((10 : Rat) ^ fs.length),
              rest2.dropWhile Char.isDigit)
      | _ => ((digitsVal ds : Rat), rest)
    match vr.2.map Char.toLower with
    | [] => some (vr.1, DurUnit.ms)
    | ['m', 's'] => some (vr.1, DurUnit.ms)
    | ['s'] => some (vr.1, DurUnit.s)
    | ['m'] => some (vr.1, DurUnit.m)
    | ['h'] => some (vr.1, DurUnit.h)
    | _ => none

/-- Model of `parseDuration(durationStr)`: a falsy argument (absent or
empty string) yields the 100 ms default, a string matching the duration
regex yields value times unit multiplier, and any other string yields 100
(after a console warning, which the model drops). -/
def parseDuration (durationStr : Option String) : Rat :=
  match durationStr with
  | none => 100
  | some str =>
    if str == "" then 100
    else
      match matchDuration str with
      | none => 100
      | some vu => vu.1 * unitMult vu.2

/-- Errors of the script.  `retryable` and `fatal` are the two classified
error classes (`RetryableError` / `FatalError`, distinguished by the
`retryable` flag); `generic` is any other JavaScript exception (a plain
`Error` or a runtime `TypeError`), carrying its message. -/
inductive JsError
  | retryable (message : String)
  | fatal (message : String)
  | generic (message : String)
deriving DecidableEq, Repr

/-- Fixed User-Agent value `SGNL-CAEP-Hub/2.0` sent on every request. -/
def SGNL_USER_AGENT : String := "SGNL-CAEP-Hub/2.0"

/-- Slack user record as consumed by the script; `user.id` may itself be
absent (`undefined`). -/
structure SlackUser where
  id : Option String
deriving DecidableEq, Repr

/-- Parsed JSON body of a remote response, restricted to the fields the
script reads: `ok` (as its truthiness), `error`, `user` and
`access_token`.  An absent field is `none`/`false`. -/
structure ApiBody where
  ok : Bool := false
  error : Option String := none
  user : Option SlackUser := none
  access_token : Option String := none
deriving DecidableEq, Repr

/-- Remote HTTP response: status code, status text and parsed JSON body. -/
structure HttpResponse where
  status : Nat
  statusText : String := ""
  body : ApiBody := {}
deriving DecidableEq, Repr

/-- Truthiness of `response.ok` of the fetch API: status in 200–299. -/
def respOk (r : HttpResponse) : Bool :=
  decide (200 ≤ r.status) && decide (r.status ≤ 299)

/-- Role of an outbound request, recording which call site issued it. -/
inductive ReqKind
  | tokenExchange
  | userLookup
  | sessionReset
deriving DecidableEq, Repr

/-- Body of an outbound request: none for GET, the form-encoded
`URLSearchParams` pairs for the token exchange, and the serialized JSON
object with the single (possibly undefined) `user_id` property for the
session reset. -/
inductive ReqBody
  | noBody
  | form (fields : List (String × String))
  | userIdJson (userId : Option String)
deriving DecidableEq, Repr

/-- Outbound HTTP request as passed to `fetch`. -/
structure HttpRequest where
  method : String
  url : String
  headers : List (String × String)
  body : ReqBody
  kind : ReqKind
deriving DecidableEq, Repr

/-- Secrets mapping of the execution context, restricted to the keys the
script reads; an absent key is `none`. -/
structure Secrets where
  BEARER_AUTH_TOKEN : Option String := none
  BASIC_USERNAME : Option String := none
  BASIC_PASSWORD : Option String := none
  OAUTH2_AUTHORIZATION_CODE_ACCESS_TOKEN : Option String := none
  OAUTH2_CLIENT_CREDENTIALS_CLIENT_SECRET : Option String := none
deriving DecidableEq, Repr

/-- Environment mapping of the execution context, restricted to the keys
the script reads. -/
structure Env where
  ADDRESS : Option String := none
  OAUTH2_CLIENT_CREDENTIALS_TOKEN_URL : Option String := none
  OAUTH2_CLIENT_CREDENTIALS_CLIENT_ID : Option String := none
  OAUTH2_CLIENT_CREDENTIALS_SCOPE : Option String := none
  OAUTH2_CLIENT_CREDENTIALS_AUDIENCE : Option String := none
  OAUTH2_CLIENT_CREDENTIALS_AUTH_STYLE : Option String := none
deriving DecidableEq, Repr

/-- Execution context supplied by the host (`context.environment || {}`
and `context.secrets || {}` make an absent mapping behave as empty, which
the record defaults model). -/
structure Context where
  environment : Env := {}
  secrets : Secrets := {}
deriving DecidableEq, Repr

/-- Standard base64 alphabet used by `btoa`. -/
def base64Alphabet : List Char :=
  "ABCDEFGHIJKLMNOPQRSTUVWXYZabcdefghijklmnopqrstuvwxyz0123456789+/".data

/-- Character of the base64 alphabet at a 6-bit index. -/
def b64Char (n : Nat) : Char := base64Alphabet.getD n 'A'

/-- Base64 encoding of a byte list, three bytes to four characters with
`=` padding. -/
def b64Encode : List Nat → List Char
  | [] => []
  | [a] => [b64Char (a / 4), b64Char (a % 4 * 16), '=', '=']
  | [a, b] => [b64Char (a / 4), b64Char (a % 4 * 16 + b / 16), b64Char (b % 16 * 4), '=']
  | a :: b :: c :: rest =>
    b64Char (a / 4) :: b64Char (a % 4 * 16 + b / 16) :: b64Char (b % 16 * 4 + c / 64) ::
      b64Char (c % 64) :: b64Encode rest

/-- Model of the platform `btoa`: base64 of the code points of the input,
meaningful for Latin-1 inputs, which are the only ones `btoa` accepts
(on larger code points `btoa` itself throws). -/
def btoa (s : String) : String := String.mk (b64Encode (s.data.map Char.toNat))

/-- UTF-8 bytes of a character, as percent-encoded by
`encodeURIComponent`. -/
def utf8Bytes (c : Char) : List Nat :=
  let n := c.toNat
  if n < 0x80 then [n]
  else if n < 0x800 then [0xC0 + n / 0x40, 0x80 + n % 0x40]
  else if n < 0x10000 then [0xE0 + n / 0x1000, 0x80 + n / 0x40 % 0x40, 0x80 + n % 0x40]
  else [0xF0 + n / 0x40000, 0x80 + n / 0x1000 % 0x40, 0x80 + n / 0x40 % 0x40, 0x80 + n % 0x40]

/-- Uppercase hexadecimal digit. -/
def hexDigit (n : Nat) : Char := "0123456789ABCDEF".data.getD n '0'

/-- Characters `encodeURIComponent` leaves unescaped:
`A-Z a-z 0-9 - _ . ! ~ * ' ( )`. -/
def uriUnescaped (c : Char) : Bool :=
  c.isAlpha || c.isDigit ||
    c == '-' || c == '_' || c == '.' || c == '!' || c == '~' || c == '*' ||
    c == Char.ofNat 39 || c == '(' || c == ')'

/-- Encoding of one character under `encodeURIComponent`. -/
def encodeChar (c : Char) : List Char :=
  if uriUnescaped c then [c]
  else (utf8Bytes c).foldr (fun b acc => '%' :: hexDigit (b / 16) :: hexDigit (b % 16) :: acc) []

/-- Model of `encodeURIComponent`. -/
def encodeURIComponent (s : String) : String :=
  String.mk (s.data.foldr (fun c acc => encodeChar c ++ acc) [])

/-- Model of `address.endsWith('/') ? address.slice(0, -1) : address` in
`getBaseURL`, which is also the effect of `baseUrl.replace(/\/$/, '')` in
the two endpoint operations: drop one trailing slash. -/
def dropTrailingSlash (s : String) : String :=
  match s.data.getLast? with
  | some '/' => String.mk s.data.dropLast
  | _ => s

/-- Configuration record handed to `getClientCredentialsToken`. -/
structure TokenConfig where
  tokenUrl : String
  clientId : String
  clientSecret : String
  scope : Option String := none
  audience : Option String := none
  authStyle : Option String := none
deriving DecidableEq, Repr

/-- Form fields accumulated in the `URLSearchParams` of the token
request: `grant_type=client_credentials`, then optional `scope` and
`audience`, then `client_id`/`client_secret` when the auth style is
`InParams`. -/
def tokenRequestFields (cfg : TokenConfig) : List (String × String) :=
  [("grant_type", "client_credentials")]
    ++ (if truthy cfg.scope then [("scope", cfg.scope.getD "")] else [])
    ++ (if truthy cfg.audience then [("audience", cfg.audience.getD "")] else [])
    ++ (if cfg.authStyle == some "InParams" then
          [("client_id", cfg.clientId), ("client_secret", cfg.clientSecret)]
        else [])

/-- Headers of the token request; unless the auth style is `InParams`,
an HTTP Basic header from the base64 of `clientId:clientSecret` is
added. -/
def tokenRequestHeaders (cfg : TokenConfig) : List (String × String) :=
  [("Content-Type", "application/x-www-form-urlencoded"),
   ("Accept", "application/json"),
   ("User-Agent", SGNL_USER_AGENT)]
    ++ (if cfg.authStyle == some "InParams" then []
        else [("Authorization", "Basic " ++ btoa (cfg.clientId ++ ":" ++ cfg.clientSecret))])

/-- POST request issued by `getClientCredentialsToken`. -/
def tokenRequest (cfg : TokenConfig) : HttpRequest :=
  { method := "POST"
    url := cfg.tokenUrl
    headers := tokenRequestHeaders cfg
    body := ReqBody.form (tokenRequestFields cfg)
    kind := ReqKind.tokenExchange }

/-- Approximate rendering of `JSON.stringify` of a parsed error body,
used only inside the token-failure message. -/
def stringifyBody (b : ApiBody) : String :=
  "\x7b\"ok\":" ++ (if b.ok then "true" else "false")
    ++ (match b.error with
        | none => ""
        | some e => ",\"error\":\"" ++ e ++ "\"")
    ++ "\x7d"

/-- Model of `getClientCredentialsToken(config)`: validates the
configuration, issues the form-encoded POST and interprets the response;
all its own errors are plain `Error`s (`generic`).  A missing queued
response models a network-level fetch failure. -/
def getClientCredentialsToken (cfg : TokenConfig) (pending : List HttpResponse) :
    Except JsError String × List HttpRequest × List HttpResponse :=
  if !truthyStr cfg.tokenUrl || !truthyStr cfg.clientId || !truthyStr cfg.clientSecret then
    (Except.error (JsError.generic
      "OAuth2 Client Credentials flow requires tokenUrl, clientId, and clientSecret"),
     [], pending)
  else
    match pending with
    | [] => (Except.error (JsError.generic "fetch failed"), [tokenRequest cfg], [])
    | r :: rest =>
      if !respOk r then
        (Except.error (JsError.generic
          ("OAuth2 token request failed: " ++ toString r.status ++ " " ++ r.statusText
            ++ " - " ++ stringifyBody r.body)),
         [tokenRequest cfg], rest)
      else if !truthy r.body.access_token then
        (Except.error (JsError.generic "No access_token in OAuth2 response"),
         [tokenRequest cfg], rest)
      else
        (Except.ok (r.body.access_token.getD ""), [tokenRequest cfg], rest)

/-- Message of the plain `Error` thrown when no credential shape is
present, naming the accepted credential options. -/
def noAuthMessage : String :=
  "No authentication configured. Provide one of: BEARER_AUTH_TOKEN, BASIC_USERNAME/BASIC_PASSWORD, OAUTH2_AUTHORIZATION_CODE_ACCESS_TOKEN, or OAUTH2_CLIENT_CREDENTIALS_*"

/-- Prefixing rule shared by auth methods 1 and 3:
`token.startsWith('Bearer ') ? token : 'Bearer ' + token`. -/
def bearerHeaderOf (token : String) : String :=
  if "Bearer ".data.isPrefixOf token.data then token else "Bearer " ++ token

/-- Client-credentials configuration assembled by method 4 of
`getAuthorizationHeader` from environment and secrets. -/
def ccConfigOf (ctx : Context) : TokenConfig :=
  { tokenUrl := ctx.environment.OAUTH2_CLIENT_CREDENTIALS_TOKEN_URL.getD ""
    clientId := ctx.environment.OAUTH2_CLIENT_CREDENTIALS_CLIENT_ID.getD ""
    clientSecret := ctx.secrets.OAUTH2_CLIENT_CREDENTIALS_CLIENT_SECRET.getD ""
    scope := ctx.environment.OAUTH2_CLIENT_CREDENTIALS_SCOPE
    audience := ctx.environment.OAUTH2_CLIENT_CREDENTIALS_AUDIENCE
    authStyle := ctx.environment.OAUTH2_CLIENT_CREDENTIALS_AUTH_STYLE }

/-- Model of `getAuthorizationHeader(context)`: the four credential
shapes are checked in order — bearer token, basic username+password,
pre-obtained OAuth2 authorization-code token, OAuth2 client
credentials — and with none present a plain `Error` naming the accepted
options is thrown. -/
def getAuthorizationHeader (ctx : Context) (pending : List HttpResponse) :
    Except JsError String × List HttpRequest × List HttpResponse :=
  if truthy ctx.secrets.BEARER_AUTH_TOKEN then
    (Except.ok (bearerHeaderOf (ctx.secrets.BEARER_AUTH_TOKEN.getD "")), [], pending)
  else if truthy ctx.secrets.BASIC_PASSWORD && truthy ctx.secrets.BASIC_USERNAME then
    (Except.ok ("Basic " ++ btoa (ctx.secrets.BASIC_USERNAME.getD "" ++ ":"
        ++ ctx.secrets.BASIC_PASSWORD.getD "")),
     [], pending)
  else if truthy ctx.secrets.OAUTH2_AUTHORIZATION_CODE_ACCESS_TOKEN then
    (Except.ok (bearerHeaderOf (ctx.secrets.OAUTH2_AUTHORIZATION_CODE_ACCESS_TOKEN.getD "")),
     [], pending)
  else if truthy ctx.secrets.OAUTH2_CLIENT_CREDENTIALS_CLIENT_SECRET then
    if !truthy ctx.environment.OAUTH2_CLIENT_CREDENTIALS_TOKEN_URL
        || !truthy ctx.environment.OAUTH2_CLIENT_CREDENTIALS_CLIENT_ID then
      (Except.error (JsError.generic
        "OAuth2 Client Credentials flow requires TOKEN_URL and CLIENT_ID in env"),
       [], pending)
    else
      match getClientCredentialsToken (ccConfigOf ctx) pending with
      | (Except.ok token, reqs, rest) => (Except.ok ("Bearer " ++ token), reqs, rest)
      | (Except.error e, reqs, rest) => (Except.error e, reqs, rest)
  else
    (Except.error (JsError.generic noAuthMessage), [], pending)

/-- Strict equality `data.error === '<code>'` of the possibly-undefined
application error code against a string literal. -/
def errIs (e : Option String) (code : String) : Bool :=
  match e with
  | none => false
  | some s => s == code

/-- GET request issued by `lookupUserByEmail`: the base URL with one
trailing slash dropped, the lookup path and the URL-encoded email. -/
def lookupRequest (email authHeader baseUrl : String) : HttpRequest :=
  { method := "GET"
    url := dropTrailingSlash baseUrl ++ "/api/users.lookupByEmail?email="
      ++ encodeURIComponent email
    headers := [("Authorization", authHeader), ("Content-Type", "application/json"),
                ("User-Agent", SGNL_USER_AGENT)]
    body := ReqBody.noBody
    kind := ReqKind.userLookup }

/-- Model of `lookupUserByEmail(email, authHeader, baseUrl)`.  A non-2xx
status is classified: 429 → Retryable rate-limit, ≥ 500 → Retryable with
the code, otherwise Fatal with code and status text.  On a 2xx response
a falsy `ok` is classified by the application error code, and otherwise
the (possibly undefined) `user` field is returned. -/
def lookupUserByEmail (email authHeader baseUrl : String) (pending : List HttpResponse) :
    Except JsError (Option SlackUser) × List HttpRequest × List HttpResponse :=
  let req := lookupRequest email authHeader baseUrl
  match pending with
  | [] => (Except.error (JsError.generic "fetch failed"), [req], [])
  | r :: rest =>
    if !respOk r then
      if r.status == 429 then
        (Except.error (JsError.retryable "Slack API rate limit exceeded"), [req], rest)
      else if decide (500 ≤ r.status) then
        (Except.error (JsError.retryable ("Slack API error: " ++ toString r.status)), [req], rest)
      else
        (Except.error (JsError.fatal
          ("Failed to lookup user: " ++ toString r.status ++ " " ++ r.statusText)), [req], rest)
    else if !r.body.ok then
      if errIs r.body.error "users_not_found" then
        (Except.error (JsError.fatal ("User not found with email: " ++ email)), [req], rest)
      else if errIs r.body.error "invalid_auth" || errIs r.body.error "not_authed" then
        (Except.error (JsError.fatal "Invalid or missing authentication token"), [req], rest)
      else if errIs r.body.error "account_inactive" || errIs r.body.error "token_revoked" then
        (Except.error (JsError.fatal "Authentication token is inactive or revoked"), [req], rest)
      else
        (Except.error (JsError.fatal ("Slack API error: " ++ jsShow r.body.error)), [req], rest)
    else
      (Except.ok r.body.user, [req], rest)

/-- POST request issued by `resetUserSessions`, carrying the JSON body
with the (possibly undefined) `user_id`. -/
def resetRequest (userId : Option String) (authHeader baseUrl : String) : HttpRequest :=
  { method := "POST"
    url := dropTrailingSlash baseUrl ++ "/api/admin.users.session.reset"
    headers := [("Authorization", authHeader), ("Content-Type", "application/json"),
                ("User-Agent", SGNL_USER_AGENT)]
    body := ReqBody.userIdJson userId
    kind := ReqKind.sessionReset }

/-- Model of `resetUserSessions(userId, authHeader, baseUrl)`: the same
HTTP-level classification as the lookup, then the application error
codes of the reset endpoint, and `true` on success. -/
def resetUserSessions (userId : Option String) (authHeader baseUrl : String)
    (pending : List HttpResponse) :
    Except JsError Bool × List HttpRequest × List HttpResponse :=
  let req := resetRequest userId authHeader baseUrl
  match pending with
  | [] => (Except.error (JsError.generic "fetch failed"), [req], [])
  | r :: rest =>
    if !respOk r then
      if r.status == 429 then
        (Except.error (JsError.retryable "Slack API rate limit exceeded"), [req], rest)
      else if decide (500 ≤ r.status) then
        (Except.error (JsError.retryable ("Slack API error: " ++ toString r.status)), [req], rest)
      else
        (Except.error (JsError.fatal
          ("Failed to reset sessions: " ++ toString r.status ++ " " ++ r.statusText)), [req], rest)
    else if !r.body.ok then
      if errIs r.body.error "user_not_found" then
        (Except.error (JsError.fatal ("User not found: " ++ jsShow userId)), [req], rest)
      else if errIs r.body.error "invalid_auth" || errIs r.body.error "not_authed" then
        (Except.error (JsError.fatal "Invalid or missing authentication token"), [req], rest)
      else if errIs r.body.error "missing_scope" then
        (Except.error (JsError.fatal "Token missing required scope: admin.users:write"), [req], rest)
      else if errIs r.body.error "account_inactive" || errIs r.body.error "token_revoked" then
        (Except.error (JsError.fatal "Authentication token is inactive or revoked"), [req], rest)
      else
        (Except.error (JsError.fatal ("Slack API error: " ++ jsShow r.body.error)), [req], rest)
    else
      (Except.ok true, [req], rest)

/-- Possible values of `params.userEmail`, which the host may supply as
a string, a non-string value (modelled by its truthiness) or not at
all. -/
inductive JsVal
  | undef
  | str (s : String)
  | nonString (b : Bool)
deriving DecidableEq, Repr

/-- Truthiness of a `JsVal`. -/
def valTruthy : JsVal → Bool
  | JsVal.undef => false
  | JsVal.str s => !(s == "")
  | JsVal.nonString b => b

/-- String-typedness test, `typeof x === 'string'`. -/
def isStringVal : JsVal → Bool
  | JsVal.str _ => true
  | _ => false

/-- Underlying string of a `JsVal`, meaningful once `isStringVal`. -/
def strOf : JsVal → String
  | JsVal.str s => s
  | _ => ""

/-- Invocation parameters of `invoke`. -/
structure Params where
  userEmail : JsVal := JsVal.undef
  delay : Option String := none
  address : Option String := none
deriving DecidableEq, Repr

/-- Model of `validateInputs(params)`: a missing, non-string or
blank-after-trim `userEmail` is Fatal "Invalid or missing userEmail
parameter"; a string failing the email regex is Fatal "Invalid email
format". -/
def validateInputs (params : Params) : Except JsError Unit :=
  if !valTruthy params.userEmail || !isStringVal params.userEmail
      || (jsTrim (strOf params.userEmail) == "") then
    Except.error (JsError.fatal "Invalid or missing userEmail parameter")
  else if !emailRegexTest (strOf params.userEmail) then
    Except.error (JsError.fatal "Invalid email format")
  else
    Except.ok ()

/-- Model of `getBaseURL(params, context)`: the `address` parameter when
truthy, else the `ADDRESS` environment entry; with neither, a plain
`Error` is thrown; one trailing slash is dropped. -/
def getBaseURL (params : Params) (ctx : Context) : Except JsError String :=
  let address : Option String :=
    if truthy params.address then params.address else ctx.environment.ADDRESS
  if truthy address then Except.ok (dropTrailingSlash (address.getD ""))
  else Except.error (JsError.generic
    "No URL specified. Provide address parameter or ADDRESS environment variable")

/-- Success result of `invoke`; `userId` is `user.id`, which JavaScript
lets be undefined. -/
structure InvokeResult where
  userEmail : String
  userId : Option String
  sessionsRevoked : Bool
  revokedAt : String
deriving DecidableEq, Repr

/-- Message of the `TypeError` the Node runtime raises when
`${user.id}` is evaluated with `user` undefined. -/
def undefinedIdMessage : String :=
  "Cannot read properties of undefined (reading \x27id\x27)"

/-- Steps of `invoke` after validation, auth resolution and base-URL
resolution: look the user up (the template literal logging `user.id`
raises a TypeError when the lookup returned an undefined user), wait the
parsed delay, reset the sessions and assemble the result. -/
def invokeSteps (userEmail authHeader baseUrl now : String) (pending : List HttpResponse) :
    Except JsError InvokeResult × List HttpRequest :=
  match lookupUserByEmail userEmail authHeader baseUrl pending with
  | (Except.error e, reqs, _) => (Except.error e, reqs)
  | (Except.ok none, reqs, _) => (Except.error (JsError.generic undefinedIdMessage), reqs)
  | (Except.ok (some u), reqs, pending2) =>
    match resetUserSessions u.id authHeader baseUrl pending2 with
    | (Except.error e, reqs2, _) => (Except.error e, reqs ++ reqs2)
    | (Except.ok _, reqs2, _) =>
      (Except.ok { userEmail := userEmail, userId := u.id, sessionsRevoked := true,
                   revokedAt := now },
       reqs ++ reqs2)

/-- Body of the `try` block of `invoke`, in source order: validation,
auth resolution (which may issue a token request), base-URL resolution,
delay parsing, then the two endpoint steps. -/
def invokeBody (params : Params) (ctx : Context) (now : String)
    (pending : List HttpResponse) :
    Except JsError InvokeResult × List HttpRequest :=
  match validateInputs params with
  | Except.error e => (Except.error e, [])
  | Except.ok _ =>
    match getAuthorizationHeader ctx pending with
    | (Except.error e, reqs, _) => (Except.error e, reqs)
    | (Except.ok authHeader, reqs1, pending1) =>
      match getBaseURL params ctx with
      | Except.error e => (Except.error e, reqs1)
      | Except.ok baseUrl =>
        let _delayMs := parseDuration params.delay
        match invokeSteps (strOf params.userEmail) authHeader baseUrl now pending1 with
        | (res, reqs2) => (res, reqs1 ++ reqs2)

/-- Catch clause of `invoke`: a `RetryableError` or `FatalError` is
re-thrown unchanged, anything else is wrapped as Fatal with its message
behind "Unexpected error: ". -/
def wrapError : JsError → JsError
  | JsError.retryable m => JsError.retryable m
  | JsError.fatal m => JsError.fatal m
  | JsError.generic m => JsError.fatal ("Unexpected error: " ++ m)

/-- Outcome after the catch clause. -/
def wrapResult : Except JsError InvokeResult → Except JsError InvokeResult
  | Except.ok r => Except.ok r
  | Except.error e => Except.error (wrapError e)

/-- Model of `script.invoke(params, context)`: the try body with the
catch clause applied, paired with the requests issued, in order. -/
def invoke (params : Params) (ctx : Context) (now : String)
    (pending : List HttpResponse) :
    Except JsError InvokeResult × List HttpRequest :=
  match invokeBody params ctx now pending with
  | (res, reqs) => (wrapResult res, reqs)

/-- Parameters of the `error` lifecycle entry point: the original
invocation parameters extended with the triggering error, of which the
handler reads only the error. -/
structure ErrorParams where
  error : JsError
deriving DecidableEq, Repr

/-- Model of `script.error(params, context)`: re-throws `params.error`
unchanged. -/
def errorHandler (params : ErrorParams) : Except JsError InvokeResult :=
  Except.error params.error

/-- Parameters of the `halt` lifecycle entry point. -/
structure HaltParams where
  reason : Option String := none
  userEmail : Option String := none
deriving DecidableEq, Repr

/-- Result record of `halt`. -/
structure HaltResult where
  userEmail : String
  reason : String
  haltedAt : String
  cleanupCompleted : Bool
deriving DecidableEq, Repr

/-- Model of `script.halt(params, context)`: an unconditional
acknowledgment built from `userEmail || 'unknown'` and
`reason || 'unknown'`; the empty request list records that no network
call is made. -/
def halt (params : HaltParams) (now : String) : HaltResult × List HttpRequest :=
  ({ userEmail := if truthy params.userEmail then params.userEmail.getD "" else "unknown"
     reason := if truthy params.reason then params.reason.getD "" else "unknown"
     haltedAt := now
     cleanupCompleted := true },
   [])

/-- Helper: a duration string matched by the regex parses to its value
times the unit multiplier. -/
theorem parseDuration_of_match (s : String) (v : Rat) (u : DurUnit)
    (h : matchDuration s = some (v, u)) : parseDuration (some s) = v * unitMult u := by
  have hne : (s == "") = false := by
    rcases hs : (s == "") with _ | _
    · rfl
    · exfalso
      have hseq : s = "" := eq_of_beq hs
      rw [hseq] at h
      simp [matchDuration] at h
  simp [parseDuration, hne, h]

/-- Helper: a duration string rejected by the regex parses to the 100 ms
default. -/
theorem parseDuration_of_nomatch (s : String) (h : matchDuration s = none) :
    parseDuration (some s) = 100 := by
  rcases hs : (s == "") with _ | _
  · simp [parseDuration, hs, h]
  · simp [parseDuration, hs]

/-- Helper: membership in a list survives `dropWhile` for an element the
predicate rejects. -/
theorem mem_dropWhile_of_not (p : Char → Bool) :
    ∀ (cs : List Char) (c : Char), c ∈ cs → p c = false → c ∈ cs.dropWhile p := by
  intro cs
  induction cs with
  | nil => intro c hc _; exact absurd hc (List.not_mem_nil c)
  | cons a as ih =>
    intro c hc hpc
    rcases hpa : p a with _ | _
    · rw [List.dropWhile_cons, hpa]
      simpa using hc
    · rw [List.dropWhile_cons, hpa]
      simp only [if_true]
      rcases List.mem_cons.mp hc with rfl | hmem
      · rw [hpc] at hpa; exact absurd hpa (by simp)
      · exact ih c hmem hpc

/-- Helper: the head left standing by `dropWhile` is an element of the
list and is rejected by the predicate. -/
theorem head_dropWhile (p : Char → Bool) :
    ∀ (cs : List Char) (c : Char) (rest : List Char),
      cs.dropWhile p = c :: rest → c ∈ cs ∧ p c = false := by
  intro cs
  induction cs with
  | nil => intro c rest h; exact absurd h (by simp)
  | cons a as ih =>
    intro c rest h
    rcases hpa : p a with _ | _
    · rw [List.dropWhile_cons, hpa] at h
      simp only [Bool.false_eq_true, if_false] at h
      injection h with h1 h2
      subst h1
      exact ⟨List.mem_cons_self a as, hpa⟩
    · rw [List.dropWhile_cons, hpa] at h
      simp only [if_true] at h
      obtain ⟨hm, hp⟩ := ih c rest h
      exact ⟨List.mem_cons_of_mem a hm, hp⟩

/-- Helper: a list containing a non-whitespace character does not trim
to the empty list. -/
theorem jsTrimList_ne_nil {cs : List Char} {c : Char} (hc : c ∈ cs)
    (hw : jsWhitespace c = false) : jsTrimList cs ≠ [] := by
  have h1 : c ∈ cs.dropWhile jsWhitespace := mem_dropWhile_of_not _ cs c hc hw
  have h2 : c ∈ (cs.dropWhile jsWhitespace).reverse := List.mem_reverse.mpr h1
  have h3 : c ∈ (cs.dropWhile jsWhitespace).reverse.dropWhile jsWhitespace :=
    mem_dropWhile_of_not _ _ c h2 hw
  have h4 : c ∈ jsTrimList cs := List.mem_reverse.mpr h3
  exact List.ne_nil_of_mem h4

/-- Helper: a string passing the email regex is non-empty and does not
trim to the empty string (it contains an `@`, which is not
whitespace). -/
theorem emailTest_facts (s : String) (h : emailRegexTest s = true) :
    (s == "") = false ∧ (jsTrim s == "") = false := by
  unfold emailRegexTest at h
  rcases hrest : s.data.dropWhile (fun c => !(c == '@')) with _ | ⟨c, dom⟩
  · rw [hrest] at h; simp at h
  · rw [hrest] at h
    obtain ⟨hmem, hpc⟩ := head_dropWhile _ s.data c dom hrest
    have hat : c = '@' := by
      rcases hcq : (c == '@') with _ | _
      · rw [hcq] at hpc; simp at hpc
      · exact eq_of_beq hcq
    subst hat
    constructor
    · rcases hs : (s == "") with _ | _
      · rfl
      · exfalso
        have : s = "" := eq_of_beq hs
        rw [this] at hmem
        exact absurd hmem (List.not_mem_nil _)
    · rcases hq : (jsTrim s == "") with _ | _
      · rfl
      · exfalso
        have heq : jsTrim s = "" := eq_of_beq hq
        have hnil : jsTrimList s.data = [] := by
          have := congrArg String.data heq
          simpa [jsTrim] using this
        exact jsTrimList_ne_nil hmem (by decide) hnil

/-- Helper: a `userEmail` string passing the email regex passes
`validateInputs`. -/
theorem validate_pass (p : Params) (s : String) (hue : p.userEmail = JsVal.str s)
    (h : emailRegexTest s = true) : validateInputs p = Except.ok () := by
  obtain ⟨h1, h2⟩ := emailTest_facts s h
  unfold validateInputs
  rw [hue]
  simp [valTruthy, isStringVal, strOf, h1, h2, h]

/-- Helper: the lookup operation issues exactly its one GET request. -/
theorem lookup_reqs (email authHeader baseUrl : String) (pending : List HttpResponse) :
    (lookupUserByEmail email authHeader baseUrl pending).2.1 =
      [lookupRequest email authHeader baseUrl] := by
  unfold lookupUserByEmail
  cases pending with
  | nil => rfl
  | cons r rest => simp only []; split_ifs <;> rfl

/-- Helper: the reset operation issues exactly its one POST request. -/
theorem reset_reqs (userId : Option String) (authHeader baseUrl : String)
    (pending : List HttpResponse) :
    (resetUserSessions userId authHeader baseUrl pending).2.1 =
      [resetRequest userId authHeader baseUrl] := by
  unfold resetUserSessions
  cases pending with
  | nil => rfl
  | cons r rest => simp only []; split_ifs <;> rfl

/-- Helper: the token exchange issues no request or exactly its one
token POST. -/
theorem gcc_reqs (cfg : TokenConfig) (pending : List HttpResponse) :
    (getClientCredentialsToken cfg pending).2.1 = []
      ∨ (getClientCredentialsToken cfg pending).2.1 = [tokenRequest cfg] := by
  unfold getClientCredentialsToken
  split_ifs
  · exact Or.inl rfl
  · cases pending with
    | nil => exact Or.inr rfl
    | cons r rest => simp only []; split_ifs <;> exact Or.inr rfl

/-- Helper: auth resolution issues no request or exactly one token
exchange POST. -/
theorem auth_reqs (ctx : Context) (pending : List HttpResponse) :
    (getAuthorizationHeader ctx pending).2.1 = []
      ∨ (getAuthorizationHeader ctx pending).2.1 = [tokenRequest (ccConfigOf ctx)] := by
  unfold getAuthorizationHeader
  split_ifs
  · exact Or.inl rfl
  · exact Or.inl rfl
  · exact Or.inl rfl
  · exact Or.inl rfl
  · rcases hg : getClientCredentialsToken (ccConfigOf ctx) pending with ⟨gres, greqs, grest⟩
    have := gcc_reqs (ccConfigOf ctx) pending
    rw [hg] at this
    cases gres with
    | ok tok => simpa using this
    | error e => simpa using this
  · exact Or.inl rfl

/-- Helper: the endpoint steps issue the lookup GET alone, or the lookup
GET followed by the reset POST. -/
theorem invokeSteps_trace (email authHeader baseUrl now : String)
    (pending : List HttpResponse) :
    (invokeSteps email authHeader baseUrl now pending).2 =
        [lookupRequest email authHeader baseUrl]
      ∨ ∃ uid, (invokeSteps email authHeader baseUrl now pending).2 =
        [lookupRequest email authHeader baseUrl, resetRequest uid authHeader baseUrl] := by
  unfold invokeSteps
  rcases hl : lookupUserByEmail email authHeader baseUrl pending with ⟨lres, lreqs, lpend⟩
  have hlr : lreqs = [lookupRequest email authHeader baseUrl] := by
    have := lookup_reqs email authHeader baseUrl pending
    rw [hl] at this
    exact this
  subst hlr
  cases lres with
  | error e => exact Or.inl rfl
  | ok u =>
    cases u with
    | none => exact Or.inl rfl
    | some u =>
      dsimp only
      rcases hr : resetUserSessions u.id authHeader baseUrl lpend with ⟨rres, rreqs, rpend⟩
      have hrr : rreqs = [resetRequest u.id authHeader baseUrl] := by
        have := reset_reqs u.id authHeader baseUrl lpend
        rw [hr] at this
        exact this
      subst hrr
      cases rres with
      | error e => exact Or.inr ⟨u.id, rfl⟩
      | ok b => exact Or.inr ⟨u.id, rfl⟩

/-- Helper: the catch clause does not change the request trace. -/
theorem invoke_trace_eq (p : Params) (ctx : Context) (now : String)
    (pending : List HttpResponse) :
    (invoke p ctx now pending).2 = (invokeBody p ctx now pending).2 := rfl

/-- Helper: with valid inputs, an auth resolution that succeeds without a
network call and a truthy `address` parameter, `invoke` reduces to the
wrapped endpoint steps. -/
theorem invoke_direct_auth (p : Params) (ctx : Context) (now email hdr addr : String)
    (pending : List HttpResponse)
    (hue : p.userEmail = JsVal.str email)
    (hv : validateInputs p = Except.ok ())
    (ha : getAuthorizationHeader ctx pending = (Except.ok hdr, [], pending))
    (haddr : p.address = some addr) (hne : addr ≠ "") :
    invoke p ctx now pending =
      (wrapResult (invokeSteps email hdr (dropTrailingSlash addr) now pending).1,
       (invokeSteps email hdr (dropTrailingSlash addr) now pending).2) := by
  have hb : getBaseURL p ctx = Except.ok (dropTrailingSlash addr) := by
    unfold getBaseURL
    rw [haddr]
    simp [truthy, hne]
  unfold invoke invokeBody
  rw [hv, ha, hb, hue]
  simp [strOf]

/-- Helper: disequality gives a false boolean equality test. -/
theorem beq_false_of_ne {α : Type} [BEq α] [LawfulBEq α] {a b : α} (h : a ≠ b) :
    (a == b) = false := by
  rcases hq : a == b with _ | _
  · rfl
  · exact absurd (eq_of_beq hq) h

/-- Helper: a validation error is wrapped and returned with no request
issued. -/
theorem invoke_of_validate_error (p : Params) (ctx : Context) (now : String)
    (pending : List HttpResponse) (e : JsError)
    (h : validateInputs p = Except.error e) :
    invoke p ctx now pending = (Except.error (wrapError e), []) := by
  unfold invoke invokeBody
  rw [h]
  rfl

/-- Fixture: well-formed invocation parameters. -/
def paramsOk : Params :=
  { userEmail := JsVal.str "user@example.com", delay := some "100ms",
    address := some "https://slack.com" }

/-- Fixture: context with a bearer-token credential. -/
def ctxBearer : Context := { secrets := { BEARER_AUTH_TOKEN := some "xoxb-test" } }

/-- Fixture: successful lookup response. -/
def respLookupOk : HttpResponse :=
  { status := 200, body := { ok := true, user := some { id := some "U123" } } }

/-- Fixture: successful reset response. -/
def respResetOk : HttpResponse := { status := 200, body := { ok := true } }

/-- Fixture: HTTP 429 response. -/
def respRate : HttpResponse := { status := 429 }

/-- Helper: a 2xx response with truthy `ok` makes the lookup return the
`user` field. -/
theorem lookup_success (email hdr base : String) (r : HttpResponse)
    (rest : List HttpResponse) (h2xx : respOk r = true) (hok : r.body.ok = true) :
    lookupUserByEmail email hdr base (r :: rest) =
      (Except.ok r.body.user, [lookupRequest email hdr base], rest) := by
  unfold lookupUserByEmail
  simp [h2xx, hok]

/-- Helper: a 2xx response with truthy `ok` makes the reset succeed. -/
theorem reset_success (uid : Option String) (hdr base : String) (r : HttpResponse)
    (rest : List HttpResponse) (h2xx : respOk r = true) (hok : r.body.ok = true) :
    resetUserSessions uid hdr base (r :: rest) =
      (Except.ok true, [resetRequest uid hdr base], rest) := by
  unfold resetUserSessions
  simp [h2xx, hok]

/-- Helper: a 429 response makes the lookup throw the Retryable
rate-limit error. -/
theorem lookup_rate (email hdr base : String) (r : HttpResponse)
    (rest : List HttpResponse) (h : r.status = 429) :
    lookupUserByEmail email hdr base (r :: rest) =
      (Except.error (JsError.retryable "Slack API rate limit exceeded"),
       [lookupRequest email hdr base], rest) := by
  have hno : respOk r = false := by simp [respOk, h]
  unfold lookupUserByEmail
  simp [hno, h]

/-- Helper: a 429 response makes the reset throw the Retryable
rate-limit error. -/
theorem reset_rate (uid : Option String) (hdr base : String) (r : HttpResponse)
    (rest : List HttpResponse) (h : r.status = 429) :
    resetUserSessions uid hdr base (r :: rest) =
      (Except.error (JsError.retryable "Slack API rate limit exceeded"),
       [resetRequest uid hdr base], rest) := by
  have hno : respOk r = false := by simp [respOk, h]
  unfold resetUserSessions
  simp [hno, h]

/-- C2: a missing, non-string or whitespace-only `userEmail` fails Fatal
"Invalid or missing userEmail parameter" with no network call; a
non-blank string failing the two-part local@domain pattern fails Fatal
"Invalid email format" with no network call; a string matching the
pattern passes validation. -/
theorem claim2_validation (p : Params) (ctx : Context) (now : String)
    (pending : List HttpResponse) (s : String) :
    ((p.userEmail = JsVal.undef ∨ (∃ b, p.userEmail = JsVal.nonString b)
        ∨ (∃ t, p.userEmail = JsVal.str t ∧ jsTrim t = "")) →
      invoke p ctx now pending =
        (Except.error (JsError.fatal "Invalid or missing userEmail parameter"), []))
    ∧ (p.userEmail = JsVal.str s → jsTrim s ≠ "" → emailRegexTest s = false →
      invoke p ctx now pending = (Except.error (JsError.fatal "Invalid email format"), []))
    ∧ (emailRegexTest s = true →
      validateInputs { userEmail := JsVal.str s } = Except.ok ()) := by
  refine ⟨?_, ?_, ?_⟩
  · intro hcase
    have hv : validateInputs p =
        Except.error (JsError.fatal "Invalid or missing userEmail parameter") := by
      unfold validateInputs
      rcases hcase with hu | ⟨b, hb⟩ | ⟨t, ht, htr⟩
      · rw [hu]; simp [valTruthy]
      · rw [hb]; cases b <;> simp [valTruthy, isStringVal]
      · rw [ht]; simp [valTruthy, isStringVal, strOf, htr]
    exact invoke_of_validate_error p ctx now pending _ hv
  · intro hue htrim hre
    have hsne : s ≠ "" := by
      intro hs
      apply htrim
      rw [hs]
      rfl
    have hv : validateInputs p = Except.error (JsError.fatal "Invalid email format") := by
      unfold validateInputs
      rw [hue]
      simp [valTruthy, isStringVal, strOf, beq_false_of_ne hsne, beq_false_of_ne htrim, hre]
    exact invoke_of_validate_error p ctx now pending _ hv
  · intro h
    exact validate_pass _ s rfl h

/-- C2 witness: concrete whitespace-only, malformed and well-formed
emails. -/
theorem claim2_witness :
    invoke { userEmail := JsVal.str "   " } {} "T1" [] =
        (Except.error (JsError.fatal "Invalid or missing userEmail parameter"), [])
      ∧ invoke { userEmail := JsVal.str "not-an-email" } {} "T1" [] =
        (Except.error (JsError.fatal "Invalid email format"), [])
      ∧ validateInputs { userEmail := JsVal.str "user@example.com" } = Except.ok () :=
  ⟨(claim2_validation { userEmail := JsVal.str "   " } {} "T1" [] "").1
      (Or.inr (Or.inr ⟨"   ", rfl, by decide⟩)),
   (claim2_validation { userEmail := JsVal.str "not-an-email" } {} "T1" [] "not-an-email").2.1
      rfl (by decide) (by decide),
   (claim2_validation { userEmail := JsVal.str "user@example.com" } {} "T1" []
      "user@example.com").2.2 (by decide)⟩

/-- C7: an error of the try body already classified Retryable or Fatal
is re-thrown by `invoke` unchanged; an unclassified exception is
re-thrown as Fatal "Unexpected error: <message>"; and the `error` entry
point re-throws `params.error` unchanged. -/
theorem claim7_propagation (p : Params) (ctx : Context) (now : String)
    (pending : List HttpResponse) (m : String) :
    ((invokeBody p ctx now pending).1 = Except.error (JsError.retryable m) →
        (invoke p ctx now pending).1 = Except.error (JsError.retryable m))
      ∧ ((invokeBody p ctx now pending).1 = Except.error (JsError.fatal m) →
        (invoke p ctx now pending).1 = Except.error (JsError.fatal m))
      ∧ ((invokeBody p ctx now pending).1 = Except.error (JsError.generic m) →
        (invoke p ctx now pending).1 =
          Except.error (JsError.fatal ("Unexpected error: " ++ m)))
      ∧ (∀ e, errorHandler { error := e } = Except.error e) := by
  refine ⟨?_, ?_, ?_, fun e => rfl⟩ <;>
    · intro h
      unfold invoke
      rcases hB : invokeBody p ctx now pending with ⟨res, reqs⟩
      rw [hB] at h
      simp only at h
      subst h
      rfl

set_option maxRecDepth 8000 in
/-- C7 witness: a Retryable 429, a Fatal validation error and an
unclassified no-auth error at concrete inputs, plus the error entry
point. -/
theorem claim7_witness :
    (invoke paramsOk ctxBearer "T1" [respRate]).1 =
        Except.error (JsError.retryable "Slack API rate limit exceeded")
      ∧ (invoke { userEmail := JsVal.str "bad" } ctxBearer "T1" []).1 =
        Except.error (JsError.fatal "Invalid email format")
      ∧ (invoke paramsOk {} "T1" []).1 =
        Except.error (JsError.fatal ("Unexpected error: " ++ noAuthMessage))
      ∧ errorHandler { error := JsError.retryable "boom" } =
        Except.error (JsError.retryable "boom") :=
  ⟨(claim7_propagation paramsOk ctxBearer "T1" [respRate]
      "Slack API rate limit exceeded").1 (by decide),
   (claim7_propagation { userEmail := JsVal.str "bad" } ctxBearer "T1" []
      "Invalid email format").2.1 (by decide),
   (claim7_propagation paramsOk {} "T1" [] noAuthMessage).2.2.1 (by decide),
   (claim7_propagation paramsOk {} "T1" [] "").2.2.2 (JsError.retryable "boom")⟩

/-- C8: the duration parser never fails: absent or empty input gives
100; a string matched by the duration regex gives its value times the
unit multiplier (ms 1, s 1000, m 60000, h 3600000, defaulting to ms);
"500ms" gives 500, "2s" gives 2000 and a non-matching string such as
"invalid" gives 100. -/
theorem claim8_duration :
    parseDuration none = 100 ∧ parseDuration (some "") = 100
      ∧ (∀ s v u, matchDuration s = some (v, u) → parseDuration (some s) = v * unitMult u)
      ∧ (∀ s, matchDuration s = none → parseDuration (some s) = 100)
      ∧ unitMult DurUnit.ms = 1 ∧ unitMult DurUnit.s = 1000
      ∧ unitMult DurUnit.m = 60000 ∧ unitMult DurUnit.h = 3600000
      ∧ parseDuration (some "500ms") = 500 ∧ parseDuration (some "2s") = 2000
      ∧ parseDuration (some "invalid") = 100 := by
  refine ⟨rfl, rfl, parseDuration_of_match, parseDuration_of_nomatch, rfl, ?_, ?_, ?_, ?_, ?_, ?_⟩
  · norm_num [unitMult]
  · norm_num [unitMult]
  · norm_num [unitMult]
  · rw [parseDuration_of_match "500ms" 500 DurUnit.ms (by decide)]
    norm_num [unitMult]
  · rw [parseDuration_of_match "2s" 2 DurUnit.s (by decide)]
    norm_num [unitMult]
  · exact parseDuration_of_nomatch "invalid" (by decide)

/-- C8 witness: the regex-match and no-match components applied at
concrete strings. -/
theorem claim8_witness :
    parseDuration (some "2s") = 2 * unitMult DurUnit.s ∧ parseDuration (some "x7") = 100 :=
  ⟨claim8_duration.2.2.1 "2s" 2 DurUnit.s (by decide),
   claim8_duration.2.2.2.1 "x7" (by decide)⟩

/-- C9: `halt` issues no request and unconditionally returns the record
with `userEmail` and `reason` defaulted to "unknown" when falsy, the
clock reading as `haltedAt` and `cleanupCompleted` true; in particular
with params `{reason: "timeout"}`. -/
theorem claim9_halt (p : HaltParams) (now : String) :
    (halt p now).2 = []
      ∧ (halt p now).1.haltedAt = now
      ∧ (halt p now).1.cleanupCompleted = true
      ∧ (truthy p.userEmail = false → (halt p now).1.userEmail = "unknown")
      ∧ (truthy p.userEmail = true → (halt p now).1.userEmail = p.userEmail.getD "")
      ∧ (truthy p.reason = false → (halt p now).1.reason = "unknown")
      ∧ (truthy p.reason = true → (halt p now).1.reason = p.reason.getD "")
      ∧ halt { reason := some "timeout" } now =
          ({ userEmail := "unknown", reason := "timeout", haltedAt := now,
             cleanupCompleted := true }, []) := by
  refine ⟨rfl, rfl, rfl, ?_, ?_, ?_, ?_, ?_⟩
  · intro h; simp [halt, h]
  · intro h; simp [halt, h]
  · intro h; simp [halt, h]
  · intro h; simp [halt, h]
  · simp [halt, truthy]

/-- C9 witness: `halt` at the timeout fixture and clock "T1". -/
theorem claim9_witness :
    (halt { reason := some "timeout" } "T1").1.userEmail = "unknown"
      ∧ halt { reason := some "timeout" } "T1" =
          ({ userEmail := "unknown", reason := "timeout", haltedAt := "T1",
             cleanupCompleted := true }, []) :=
  ⟨(claim9_halt { reason := some "timeout" } "T1").2.2.2.1 (by decide),
   (claim9_halt { reason := some "timeout" } "T1").2.2.2.2.2.2.2⟩

/-- C3: a non-2xx response to the lookup or reset request is classified:
429 gives a Retryable error whose message mentions the rate limit, 500
and above gives a Retryable error, and any other non-2xx status gives a
Fatal error whose message includes the status code and status text; in
particular an invocation whose lookup answers 429 fails Retryable. -/
theorem claim3_http_classification (email hdr base addr now : String) (uid : Option String)
    (r : HttpResponse) (rest : List HttpResponse) (p : Params) (ctx : Context) :
    (r.status = 429 →
      (lookupUserByEmail email hdr base (r :: rest)).1 =
          Except.error (JsError.retryable "Slack API rate limit exceeded")
        ∧ (resetUserSessions uid hdr base (r :: rest)).1 =
          Except.error (JsError.retryable "Slack API rate limit exceeded"))
    ∧ (500 ≤ r.status →
      (lookupUserByEmail email hdr base (r :: rest)).1 =
          Except.error (JsError.retryable ("Slack API error: " ++ toString r.status))
        ∧ (resetUserSessions uid hdr base (r :: rest)).1 =
          Except.error (JsError.retryable ("Slack API error: " ++ toString r.status)))
    ∧ (respOk r = false → r.status ≠ 429 → r.status < 500 →
      (lookupUserByEmail email hdr base (r :: rest)).1 =
          Except.error (JsError.fatal
            ("Failed to lookup user: " ++ toString r.status ++ " " ++ r.statusText))
        ∧ (resetUserSessions uid hdr base (r :: rest)).1 =
          Except.error (JsError.fatal
            ("Failed to reset sessions: " ++ toString r.status ++ " " ++ r.statusText)))
    ∧ (p.userEmail = JsVal.str email → validateInputs p = Except.ok () →
       getAuthorizationHeader ctx (r :: rest) = (Except.ok hdr, [], r :: rest) →
       p.address = some addr → addr ≠ "" → r.status = 429 →
      (invoke p ctx now (r :: rest)).1 =
        Except.error (JsError.retryable "Slack API rate limit exceeded")) := by
  refine ⟨?_, ?_, ?_, ?_⟩
  · intro h
    exact ⟨by rw [lookup_rate email hdr base r rest h],
           by rw [reset_rate uid hdr base r rest h]⟩
  · intro h5
    have hno : respOk r = false := by
      simp only [respOk]
      have : ¬ (r.status ≤ 299) := by omega
      simp [this]
    have hne : r.status ≠ 429 := by omega
    constructor
    · unfold lookupUserByEmail
      simp [hno, beq_false_of_ne hne, h5]
    · unfold resetUserSessions
      simp [hno, beq_false_of_ne hne, h5]
  · intro hno hne hlt
    have hnot5 : ¬ (500 ≤ r.status) := by omega
    constructor
    · unfold lookupUserByEmail
      simp [hno, beq_false_of_ne hne, hnot5]
    · unfold resetUserSessions
      simp [hno, beq_false_of_ne hne, hnot5]
  · intro hue hv ha haddr hne h429
    rw [invoke_direct_auth p ctx now email hdr addr (r :: rest) hue hv ha haddr hne]
    unfold invokeSteps
    rw [lookup_rate email hdr (dropTrailingSlash addr) r rest h429]
    rfl

/-- C3 witness: a 503 lookup response classified Retryable, and a full
invocation against a 429 lookup response failing Retryable. -/
theorem claim3_witness :
    (lookupUserByEmail "user@example.com" "Bearer xoxb-test" "https://slack.com"
        [{ status := 503 }]).1 =
      Except.error (JsError.retryable ("Slack API error: " ++ toString 503))
      ∧ (invoke paramsOk ctxBearer "T1" [respRate]).1 =
      Except.error (JsError.retryable "Slack API rate limit exceeded") :=
  ⟨((claim3_http_classification "user@example.com" "Bearer xoxb-test" "https://slack.com"
      "" "" none { status := 503 } [] {} {}).2.1 (by decide)).1,
   (claim3_http_classification "user@example.com" "Bearer xoxb-test" ""
      "https://slack.com" "T1" none respRate [] paramsOk ctxBearer).2.2.2
      rfl (by decide) (by decide) rfl (by decide) rfl⟩

/-- C4: a 2xx response whose body has falsy `ok` always throws Fatal;
for the lookup, `users_not_found` gives "User not found with email:
<email>", `invalid_auth`/`not_authed` give "Invalid or missing
authentication token", `account_inactive`/`token_revoked` give
"Authentication token is inactive or revoked" and any other code gives a
Fatal message embedding the raw code; for the reset, `missing_scope`
gives exactly "Token missing required scope: admin.users:write". -/
theorem claim4_app_errors (email hdr base : String) (uid : Option String)
    (r : HttpResponse) (rest : List HttpResponse)
    (h2xx : respOk r = true) (hok : r.body.ok = false) :
    (∃ m, (lookupUserByEmail email hdr base (r :: rest)).1 =
        Except.error (JsError.fatal m))
    ∧ (∃ m, (resetUserSessions uid hdr base (r :: rest)).1 =
        Except.error (JsError.fatal m))
    ∧ (r.body.error = some "users_not_found" →
      (lookupUserByEmail email hdr base (r :: rest)).1 =
        Except.error (JsError.fatal ("User not found with email: " ++ email)))
    ∧ (r.body.error = some "invalid_auth" ∨ r.body.error = some "not_authed" →
      (lookupUserByEmail email hdr base (r :: rest)).1 =
        Except.error (JsError.fatal "Invalid or missing authentication token"))
    ∧ (r.body.error = some "account_inactive" ∨ r.body.error = some "token_revoked" →
      (lookupUserByEmail email hdr base (r :: rest)).1 =
        Except.error (JsError.fatal "Authentication token is inactive or revoked"))
    ∧ (∀ code, r.body.error = some code →
        code ∉ ["users_not_found", "invalid_auth", "not_authed",
                "account_inactive", "token_revoked"] →
      (lookupUserByEmail email hdr base (r :: rest)).1 =
        Except.error (JsError.fatal ("Slack API error: " ++ code)))
    ∧ (r.body.error = some "missing_scope" →
      (resetUserSessions uid hdr base (r :: rest)).1 =
        Except.error (JsError.fatal "Token missing required scope: admin.users:write")) := by
  refine ⟨?_, ?_, ?_, ?_, ?_, ?_, ?_⟩
  · unfold lookupUserByEmail
    simp only [h2xx, hok, Bool.not_true, Bool.false_eq_true, if_false, Bool.not_false, if_true]
    split_ifs <;> exact ⟨_, rfl⟩
  · unfold resetUserSessions
    simp only [h2xx, hok, Bool.not_true, Bool.false_eq_true, if_false, Bool.not_false, if_true]
    split_ifs <;> exact ⟨_, rfl⟩
  · intro h
    unfold lookupUserByEmail
    simp [h2xx, hok, errIs, h]
  · intro h
    unfold lookupUserByEmail
    rcases h with h | h <;> simp [h2xx, hok, errIs, h]
  · intro h
    unfold lookupUserByEmail
    rcases h with h | h <;> simp [h2xx, hok, errIs, h]
  · intro code h hnotin
    simp only [List.mem_cons, List.not_mem_nil, or_false, not_or] at hnotin
    obtain ⟨h1, h2, h3, h4, h5⟩ := hnotin
    unfold lookupUserByEmail
    simp [h2xx, hok, errIs, h, jsShow, beq_false_of_ne h1, beq_false_of_ne h2,
      beq_false_of_ne h3, beq_false_of_ne h4, beq_false_of_ne h5]
  · intro h
    unfold resetUserSessions
    simp [h2xx, hok, errIs, h]

/-- C4 witness: the `users_not_found` lookup message and the exact
`missing_scope` reset message at concrete responses. -/
theorem claim4_witness :
    (lookupUserByEmail "user@example.com" "Bearer xoxb-test" "https://slack.com"
        [{ status := 200, body := { ok := false, error := some "users_not_found" } }]).1 =
      Except.error (JsError.fatal "User not found with email: user@example.com")
      ∧ (resetUserSessions (some "U123") "Bearer xoxb-test" "https://slack.com"
        [{ status := 200, body := { ok := false, error := some "missing_scope" } }]).1 =
      Except.error (JsError.fatal "Token missing required scope: admin.users:write") :=
  ⟨(claim4_app_errors "user@example.com" "Bearer xoxb-test" "https://slack.com" none
      { status := 200, body := { ok := false, error := some "users_not_found" } } []
      (by decide) (by decide)).2.2.1 rfl,
   (claim4_app_errors "user@example.com" "Bearer xoxb-test" "https://slack.com" (some "U123")
      { status := 200, body := { ok := false, error := some "missing_scope" } } []
      (by decide) (by decide)).2.2.2.2.2.2 rfl⟩

/-- Helper: a truthy optional string has a truthy default-extracted
value. -/
theorem truthyStr_getD {o : Option String} (h : truthy o = true) :
    truthyStr (o.getD "") = true := by
  cases o with
  | none => simp [truthy] at h
  | some s => simpa [truthy, truthyStr] using h

/-- C5: credential shapes are checked in the fixed order bearer token,
basic username+password, pre-obtained OAuth2 authorization-code token,
OAuth2 client credentials, the first match determining the header —
"Bearer <token>" with the prefix added only when absent for shapes 1 and
3, "Basic <base64(username:password)>" for shape 2, a token exchange for
shape 4 — and with no recognized credential secret `invoke` fails Fatal
with the message naming the accepted options, before any network
call. -/
theorem claim5_auth_priority (ctx : Context) (pending : List HttpResponse)
    (p : Params) (now : String) (r : HttpResponse) (rest : List HttpResponse) (t : String) :
    (("Bearer ".data.isPrefixOf t.data = false → bearerHeaderOf t = "Bearer " ++ t)
      ∧ ("Bearer ".data.isPrefixOf t.data = true → bearerHeaderOf t = t))
    ∧ (truthy ctx.secrets.BEARER_AUTH_TOKEN = true →
      getAuthorizationHeader ctx pending =
        (Except.ok (bearerHeaderOf (ctx.secrets.BEARER_AUTH_TOKEN.getD "")), [], pending))
    ∧ (truthy ctx.secrets.BEARER_AUTH_TOKEN = false →
       (truthy ctx.secrets.BASIC_PASSWORD && truthy ctx.secrets.BASIC_USERNAME) = true →
      getAuthorizationHeader ctx pending =
        (Except.ok ("Basic " ++ btoa (ctx.secrets.BASIC_USERNAME.getD "" ++ ":"
            ++ ctx.secrets.BASIC_PASSWORD.getD "")), [], pending))
    ∧ (truthy ctx.secrets.BEARER_AUTH_TOKEN = false →
       (truthy ctx.secrets.BASIC_PASSWORD && truthy ctx.secrets.BASIC_USERNAME) = false →
       truthy ctx.secrets.OAUTH2_AUTHORIZATION_CODE_ACCESS_TOKEN = true →
      getAuthorizationHeader ctx pending =
        (Except.ok (bearerHeaderOf
            (ctx.secrets.OAUTH2_AUTHORIZATION_CODE_ACCESS_TOKEN.getD "")), [], pending))
    ∧ (truthy ctx.secrets.BEARER_AUTH_TOKEN = false →
       (truthy ctx.secrets.BASIC_PASSWORD && truthy ctx.secrets.BASIC_USERNAME) = false →
       truthy ctx.secrets.OAUTH2_AUTHORIZATION_CODE_ACCESS_TOKEN = false →
       truthy ctx.secrets.OAUTH2_CLIENT_CREDENTIALS_CLIENT_SECRET = true →
       truthy ctx.environment.OAUTH2_CLIENT_CREDENTIALS_TOKEN_URL = true →
       truthy ctx.environment.OAUTH2_CLIENT_CREDENTIALS_CLIENT_ID = true →
       respOk r = true → truthy r.body.access_token = true →
      getAuthorizationHeader ctx (r :: rest) =
        (Except.ok ("Bearer " ++ r.body.access_token.getD ""),
         [tokenRequest (ccConfigOf ctx)], rest))
    ∧ (truthy ctx.secrets.BEARER_AUTH_TOKEN = false →
       (truthy ctx.secrets.BASIC_PASSWORD && truthy ctx.secrets.BASIC_USERNAME) = false →
       truthy ctx.secrets.OAUTH2_AUTHORIZATION_CODE_ACCESS_TOKEN = false →
       truthy ctx.secrets.OAUTH2_CLIENT_CREDENTIALS_CLIENT_SECRET = false →
       validateInputs p = Except.ok () →
      invoke p ctx now pending =
        (Except.error (JsError.fatal ("Unexpected error: " ++ noAuthMessage)), [])) := by
  refine ⟨⟨?_, ?_⟩, ?_, ?_, ?_, ?_, ?_⟩
  · intro h; simp [bearerHeaderOf, h]
  · intro h; simp [bearerHeaderOf, h]
  · intro h1
    unfold getAuthorizationHeader
    simp [h1]
  · intro h1 h2
    unfold getAuthorizationHeader
    simp [h1, h2]
  · intro h1 h2 h3
    unfold getAuthorizationHeader
    simp [h1, h2, h3]
  · intro h1 h2 h3 h4 hurl hcid h2xx htok
    have hg : getClientCredentialsToken (ccConfigOf ctx) (r :: rest) =
        (Except.ok (r.body.access_token.getD ""), [tokenRequest (ccConfigOf ctx)], rest) := by
      unfold getClientCredentialsToken
      simp [ccConfigOf, truthyStr_getD hurl, truthyStr_getD hcid, truthyStr_getD h4,
        h2xx, htok]
    unfold getAuthorizationHeader
    simp [h1, h2, h3, h4, hurl, hcid, hg]
  · intro h1 h2 h3 h4 hv
    have ha : getAuthorizationHeader ctx pending =
        (Except.error (JsError.generic noAuthMessage), [], pending) := by
      unfold getAuthorizationHeader
      simp [h1, h2, h3, h4]
    unfold invoke invokeBody
    rw [hv, ha]
    rfl

set_option maxRecDepth 8000 in
/-- C5 witness: a bearer context (with the prefix absent), a basic
context that also holds a client-credentials secret (showing priority),
a pre-obtained token already carrying the prefix, and a credential-free
context making `invoke` fail Fatal with no request. -/
theorem claim5_witness :
    getAuthorizationHeader ctxBearer [] = (Except.ok (bearerHeaderOf "xoxb-test"), [], [])
      ∧ getAuthorizationHeader
          { secrets := { BASIC_USERNAME := some "u", BASIC_PASSWORD := some "pw",
                         OAUTH2_CLIENT_CREDENTIALS_CLIENT_SECRET := some "cs" } } [] =
        (Except.ok ("Basic " ++ btoa ("u" ++ ":" ++ "pw")), [], [])
      ∧ getAuthorizationHeader
          { secrets := { OAUTH2_AUTHORIZATION_CODE_ACCESS_TOKEN := some "Bearer abc" } } [] =
        (Except.ok (bearerHeaderOf "Bearer abc"), [], [])
      ∧ invoke paramsOk {} "T1" [] =
        (Except.error (JsError.fatal ("Unexpected error: " ++ noAuthMessage)), []) :=
  ⟨(claim5_auth_priority ctxBearer [] paramsOk "T1" respRate [] "").2.1 (by decide),
   (claim5_auth_priority
      { secrets := { BASIC_USERNAME := some "u", BASIC_PASSWORD := some "pw",
                     OAUTH2_CLIENT_CREDENTIALS_CLIENT_SECRET := some "cs" } }
      [] paramsOk "T1" respRate [] "").2.2.1 (by decide) (by decide),
   (claim5_auth_priority
      { secrets := { OAUTH2_AUTHORIZATION_CODE_ACCESS_TOKEN := some "Bearer abc" } }
      [] paramsOk "T1" respRate [] "").2.2.2.1 (by decide) (by decide) (by decide),
   (claim5_auth_priority {} [] paramsOk "T1" respRate [] "").2.2.2.2.2
      (by decide) (by decide) (by decide) (by decide) (by decide)⟩

/-- Fixture: 2xx lookup response with `ok: false` and
`error: "users_not_found"`. -/
def respUsersNotFound : HttpResponse :=
  { status := 200, body := { ok := false, error := some "users_not_found" } }

/-- C6: every invocation issues at most one lookup and at most one reset
request, the reset only after the lookup (any further request is the
auth resolver's token exchange, preceding both); and when the lookup
answers `{ok:false, error:"users_not_found"}` the invocation fails Fatal
"User not found with email: <email>" with the reset endpoint never
called. -/
theorem claim6_call_bounds (p : Params) (ctx : Context) (now : String)
    (pending : List HttpResponse) (email hdr addr : String) (r : HttpResponse)
    (rest : List HttpResponse) :
    (∃ auth mid, (invoke p ctx now pending).2 = auth ++ mid
      ∧ (∀ q ∈ auth, q.kind = ReqKind.tokenExchange)
      ∧ (mid = []
         ∨ (∃ e h b, mid = [lookupRequest e h b])
         ∨ (∃ e h b uid, mid = [lookupRequest e h b, resetRequest uid h b])))
    ∧ (p.userEmail = JsVal.str email → validateInputs p = Except.ok () →
       getAuthorizationHeader ctx (r :: rest) = (Except.ok hdr, [], r :: rest) →
       p.address = some addr → addr ≠ "" →
       respOk r = true → r.body.ok = false → r.body.error = some "users_not_found" →
      invoke p ctx now (r :: rest) =
        (Except.error (JsError.fatal ("User not found with email: " ++ email)),
         [lookupRequest email hdr (dropTrailingSlash addr)])) := by
  constructor
  · rw [invoke_trace_eq]
    unfold invokeBody
    cases hv : validateInputs p with
    | error e => exact ⟨[], [], rfl, by simp, Or.inl rfl⟩
    | ok u =>
      rcases ha : getAuthorizationHeader ctx pending with ⟨ares, reqs1, pend1⟩
      have h1 := auth_reqs ctx pending
      rw [ha] at h1
      simp only at h1
      have h1k : ∀ q ∈ reqs1, q.kind = ReqKind.tokenExchange := by
        rcases h1 with h1 | h1 <;> subst h1
        · intro q hq; exact absurd hq (List.not_mem_nil q)
        · intro q hq
          rcases List.mem_singleton.mp hq with rfl
          rfl
      cases ares with
      | error e => exact ⟨reqs1, [], by simp, h1k, Or.inl rfl⟩
      | ok hdr2 =>
        dsimp only
        cases hb : getBaseURL p ctx with
        | error e => exact ⟨reqs1, [], by simp, h1k, Or.inl rfl⟩
        | ok base =>
          dsimp only
          rcases hs : invokeSteps (strOf p.userEmail) hdr2 base now pend1 with ⟨res2, reqs2⟩
          have h2 := invokeSteps_trace (strOf p.userEmail) hdr2 base now pend1
          rw [hs] at h2
          simp only at h2
          refine ⟨reqs1, reqs2, rfl, h1k, ?_⟩
          rcases h2 with h2 | ⟨uid, h2⟩
          · exact Or.inr (Or.inl ⟨_, _, _, h2⟩)
          · exact Or.inr (Or.inr ⟨_, _, _, uid, h2⟩)
  · intro hue hv ha haddr hne h2xx hokf herr
    rw [invoke_direct_auth p ctx now email hdr addr (r :: rest) hue hv ha haddr hne]
    unfold invokeSteps
    have hl : lookupUserByEmail email hdr (dropTrailingSlash addr) (r :: rest) =
        (Except.error (JsError.fatal ("User not found with email: " ++ email)),
         [lookupRequest email hdr (dropTrailingSlash addr)], rest) := by
      unfold lookupUserByEmail
      simp [h2xx, hokf, errIs, herr]
    rw [hl]
    rfl

/-- C6 witness: a concrete `users_not_found` lookup leaves exactly the
one lookup request in the trace and fails Fatal. -/
theorem claim6_witness :
    invoke paramsOk ctxBearer "T1" [respUsersNotFound] =
      (Except.error (JsError.fatal "User not found with email: user@example.com"),
       [lookupRequest "user@example.com" "Bearer xoxb-test" "https://slack.com"]) :=
  (claim6_call_bounds paramsOk ctxBearer "T1" [respUsersNotFound] "user@example.com"
     "Bearer xoxb-test" "https://slack.com" respUsersNotFound []).2
    rfl (by decide) (by decide) rfl (by decide) (by decide) (by decide) rfl

/-- Fixture: context with an OAuth2 client-credentials secret and its
environment configuration. -/
def ctxClientCred : Context :=
  { environment := { OAUTH2_CLIENT_CREDENTIALS_TOKEN_URL := some "https://auth.example.com/token",
                     OAUTH2_CLIENT_CREDENTIALS_CLIENT_ID := some "cid" },
    secrets := { OAUTH2_CLIENT_CREDENTIALS_CLIENT_SECRET := some "csecret" } }

/-- Fixture: successful token-exchange response. -/
def respTokenOk : HttpResponse := { status := 200, body := { access_token := some "tok123" } }

/-- Fixture: 2xx lookup response whose `user` object lacks `id`. -/
def respLookupNoId : HttpResponse :=
  { status := 200, body := { ok := true, user := some { id := none } } }

/-- Fixture: 2xx lookup response with `ok: true` but no `user` field. -/
def respLookupNoUser : HttpResponse := { status := 200, body := { ok := true } }

set_option maxRecDepth 8000 in
/-- C1 counterexample: with an OAuth2 client-credentials credential — a
configured credential — and successful token, lookup and reset
responses, `invoke` returns the stated success result but performs three
remote calls, the first being the token-exchange POST rather than the
lookup GET, refuting "exactly two remote calls, in order". -/
theorem claim1_counterexample :
    (invoke paramsOk ctxClientCred "T0" [respTokenOk, respLookupOk, respResetOk]).1 =
        Except.ok { userEmail := "user@example.com", userId := some "U123",
                    sessionsRevoked := true, revokedAt := "T0" }
      ∧ (invoke paramsOk ctxClientCred "T0" [respTokenOk, respLookupOk, respResetOk]).2 =
        [tokenRequest (ccConfigOf ctxClientCred),
         lookupRequest "user@example.com" "Bearer tok123" "https://slack.com",
         resetRequest (some "U123") "Bearer tok123" "https://slack.com"]
      ∧ (invoke paramsOk ctxClientCred "T0" [respTokenOk, respLookupOk, respResetOk]).2.length ≠ 2 :=
  ⟨by decide, by decide, by decide⟩

/-- C1 (amended): with a valid userEmail, a base address and a
credential resolved without a token fetch (bearer, basic or pre-obtained
OAuth2 token), when the identity lookup responds 2xx with
`{ok:true,user:{id}}` and the session invalidation responds 2xx with
`{ok:true}`, `invoke` returns `{userEmail, userId, sessionsRevoked:
true, revokedAt: <clock reading>}` and performs exactly two remote
calls, in order: a GET to the lookup path then a POST to the reset
path. -/
theorem claim1_two_calls (p : Params) (ctx : Context) (now email hdr addr uid : String)
    (r1 r2 : HttpResponse)
    (hue : p.userEmail = JsVal.str email)
    (hv : validateInputs p = Except.ok ())
    (ha : getAuthorizationHeader ctx [r1, r2] = (Except.ok hdr, [], [r1, r2]))
    (haddr : p.address = some addr) (hne : addr ≠ "")
    (h1 : respOk r1 = true) (h1ok : r1.body.ok = true)
    (h1u : r1.body.user = some { id := some uid })
    (h2 : respOk r2 = true) (h2ok : r2.body.ok = true) :
    invoke p ctx now [r1, r2] =
      (Except.ok { userEmail := email, userId := some uid, sessionsRevoked := true,
                   revokedAt := now },
       [lookupRequest email hdr (dropTrailingSlash addr),
        resetRequest (some uid) hdr (dropTrailingSlash addr)])
    ∧ (lookupRequest email hdr (dropTrailingSlash addr)).method = "GET"
    ∧ (lookupRequest email hdr (dropTrailingSlash addr)).url =
        dropTrailingSlash (dropTrailingSlash addr) ++ "/api/users.lookupByEmail?email="
          ++ encodeURIComponent email
    ∧ (resetRequest (some uid) hdr (dropTrailingSlash addr)).method = "POST"
    ∧ (resetRequest (some uid) hdr (dropTrailingSlash addr)).url =
        dropTrailingSlash (dropTrailingSlash addr) ++ "/api/admin.users.session.reset" := by
  refine ⟨?_, rfl, rfl, rfl, rfl⟩
  rw [invoke_direct_auth p ctx now email hdr addr [r1, r2] hue hv ha haddr hne]
  unfold invokeSteps
  rw [lookup_success email hdr (dropTrailingSlash addr) r1 [r2] h1 h1ok, h1u]
  dsimp only
  rw [reset_success (some uid) hdr (dropTrailingSlash addr) r2 [] h2 h2ok]
  rfl

/-- C1 witness: the bearer-credential happy path at concrete fixtures,
with exactly the lookup and reset requests in order. -/
theorem claim1_witness :
    invoke paramsOk ctxBearer "T0" [respLookupOk, respResetOk] =
      (Except.ok { userEmail := "user@example.com", userId := some "U123",
                   sessionsRevoked := true, revokedAt := "T0" },
       [lookupRequest "user@example.com" "Bearer xoxb-test" "https://slack.com",
        resetRequest (some "U123") "Bearer xoxb-test" "https://slack.com"]) :=
  (claim1_two_calls paramsOk ctxBearer "T0" "user@example.com" "Bearer xoxb-test"
     "https://slack.com" "U123" respLookupOk respResetOk rfl (by decide) (by decide)
     rfl (by decide) (by decide) (by decide) rfl (by decide) (by decide)).1

/-- C10 counterexample: a 2xx lookup response with `ok:true` and a user
object lacking `id` does not raise — the undefined id flows through and,
with a successful reset, `invoke` returns success (with `userId`
undefined), refuting "invoke does not return success" for that case. -/
theorem claim10_counterexample :
    (invoke paramsOk ctxBearer "T0" [respLookupNoId, respResetOk]).1 =
      Except.ok { userEmail := "user@example.com", userId := none,
                  sessionsRevoked := true, revokedAt := "T0" } := by decide

/-- C10 (amended): a 2xx lookup response with `ok:true` but no `user`
field makes the lookup return the undefined user, the `user.id` access
raises an unclassified TypeError, and `invoke` fails Fatal with message
"Unexpected error: " followed by the runtime message — not Retryable and
not success — with no reset request issued. -/
theorem claim10_missing_user (p : Params) (ctx : Context) (now email hdr addr : String)
    (r : HttpResponse) (rest : List HttpResponse)
    (hue : p.userEmail = JsVal.str email)
    (hv : validateInputs p = Except.ok ())
    (ha : getAuthorizationHeader ctx (r :: rest) = (Except.ok hdr, [], r :: rest))
    (haddr : p.address = some addr) (hne : addr ≠ "")
    (h2xx : respOk r = true) (hok : r.body.ok = true) (hu : r.body.user = none) :
    invoke p ctx now (r :: rest) =
      (Except.error (JsError.fatal ("Unexpected error: " ++ undefinedIdMessage)),
       [lookupRequest email hdr (dropTrailingSlash addr)]) := by
  rw [invoke_direct_auth p ctx now email hdr addr (r :: rest) hue hv ha haddr hne]
  unfold invokeSteps
  rw [lookup_success email hdr (dropTrailingSlash addr) r rest h2xx hok, hu]
  rfl

/-- C10 witness: the missing-user fixture fails Fatal "Unexpected
error: …" after exactly the one lookup request. -/
theorem claim10_witness :
    invoke paramsOk ctxBearer "T0" [respLookupNoUser] =
      (Except.error (JsError.fatal ("Unexpected error: " ++ undefinedIdMessage)),
       [lookupRequest "user@example.com" "Bearer xoxb-test" "https://slack.com"]) :=
  claim10_missing_user paramsOk ctxBearer "T0" "user@example.com" "Bearer xoxb-test"
    "https://slack.com" respLookupNoUser [] rfl (by decide) (by decide) rfl (by decide)
    (by decide) (by decide) rfl

end SlackRevoke
